import Mathlib

/-!
Verification development for the omni-agent-telegram repository.

The Python source is shallowly embedded in Lean:
* `src/agent/markdown_formatter.py` — the `re.sub`-based markdown renderer is
  modelled by dedicated substitution functions that mirror the semantics of the
  specific regular expressions used there (non-greedy `(.*?)` between literal
  delimiters, `re.MULTILINE` line anchors, `re.DOTALL` for fenced code blocks,
  left-to-right scanning with continuation after each replacement).
* `src/tools/*.py` — the adapter `execute` functions are modelled as pure
  functions returning either a local validation error or the outbound HTTP
  action they would perform.
* `src/agent/openai_agent.py` — `OpenAIAgent.get_response` is modelled as a
  state-passing function over the conversation history, parameterised by an
  environment describing the outcomes of the (at most two) LLM calls and the
  abstracted adapter results.
-/

namespace OmniAgent

/-- Single characters that the rules below need but that are awkward to write
as literals: the double quote, the single quote and the backtick. -/
def chQuot : Char := Char.ofNat 34

def chApos : Char := Char.ofNat 39

def chBtick : Char := Char.ofNat 96

/-- Boolean prefix test on character lists (literal pattern matching, as used
by the embedded regular-expression substitutions). -/
def lpre : List Char → List Char → Bool
  | [], _ => true
  | _ :: _, [] => false
  | a :: as, b :: bs => a == b && lpre as bs

/-- Boolean substring test: does `needle` occur in `hay`?  Models Python's
`in` operator on strings. -/
def containsSub (needle : List Char) : List Char → Bool
  | [] => needle.isEmpty
  | c :: t => lpre needle (c :: t) || containsSub needle t

/-- Search for the closing delimiter `cl` of a non-greedy group `(.*?)cl`:
returns the shortest content (not containing a newline unless `dotAll`)
followed by `cl`, together with the remainder after `cl`.  The close test is
tried before consuming a character, exactly as a lazy regex group does.  The
fuel argument dominates the length of the scanned list. -/
def findCloseAux (cl : List Char) (dotAll : Bool) : Nat → List Char → Option (List Char × List Char)
  | 0, _ => none
  | n + 1, s =>
    if lpre cl s then some ([], s.drop cl.length)
    else
      match s with
      | [] => none
      | c :: cs =>
        if !dotAll && c == '\n' then none
        else
          match findCloseAux cl dotAll n cs with
          | some (content, rest) => some (c :: content, rest)
          | none => none

def findClose (cl : List Char) (dotAll : Bool) (s : List Char) : Option (List Char × List Char) :=
  findCloseAux cl dotAll (s.length + 1) s

/-- Global substitution for a pattern `od(.*?)cl` with literal delimiters,
replacing each match by `pre ++ content ++ post`; scanning resumes after the
replaced region, as `re.sub` does.  Mirrors e.g.
`re.sub(r'\*\*(.*?)\*\*', r'<b>\1</b>', text)`. -/
def subDelimAux (od cl pre post : List Char) (dotAll : Bool) : Nat → List Char → List Char
  | 0, s => s
  | n + 1, s =>
    match s with
    | [] => []
    | c :: cs =>
      if lpre od s then
        match findClose cl dotAll (s.drop od.length) with
        | some (content, rest) => pre ++ content ++ post ++ subDelimAux od cl pre post dotAll n rest
        | none => c :: subDelimAux od cl pre post dotAll n cs
      else c :: subDelimAux od cl pre post dotAll n cs

def subDelim (od cl pre post : String) (dotAll : Bool) (s : List Char) : List Char :=
  subDelimAux od.data cl.data pre.data post.data dotAll s.length s

/-- Matching of `\[(.*?)\]\((.*?)\)` starting just after an opening bracket:
the label is the shortest newline-free string followed by a literal `](` such
that a shortest newline-free url followed by `)` exists after it (lazy-group
backtracking extends the label one character at a time). -/
def linkTryAux : Nat → List Char → List Char → Option (List Char × List Char × List Char)
  | 0, _, _ => none
  | n + 1, labelAcc, t =>
    let attempt : Option (List Char × List Char) :=
      if lpre (String.data "](") t then findClose (String.data ")") false (t.drop 2) else none
    match attempt with
    | some (url, rest) => some (labelAcc, url, rest)
    | none =>
      match t with
      | [] => none
      | c :: ts => if c == '\n' then none else linkTryAux n (labelAcc ++ [c]) ts

/-- Global substitution for the markdown link pattern, with the replacement
built from the two captured groups by `repl`. -/
def subLinkAux (repl : List Char → List Char → List Char) : Nat → List Char → List Char
  | 0, s => s
  | _ + 1, [] => []
  | n + 1, c :: cs =>
    if c == '[' then
      match linkTryAux (cs.length + 1) [] cs with
      | some (label, url, rest) => repl label url ++ subLinkAux repl n rest
      | none => c :: subLinkAux repl n cs
    else c :: subLinkAux repl n cs

def subLink (repl : List Char → List Char → List Char) (s : List Char) : List Char :=
  subLinkAux repl s.length s

/-- Split at the current line's end: content before the next newline (or the
whole list) together with the remainder starting at that newline. -/
def lineSplit : List Char → List Char × List Char
  | [] => ([], [])
  | c :: cs =>
    if c == '\n' then ([], c :: cs)
    else
      let p := lineSplit cs
      (c :: p.1, p.2)

/-- Whitespace class of Python's `\s` (ASCII part; the source never feeds the
exotic Unicode spaces to these patterns). -/
def isPySpace (c : Char) : Bool :=
  c == ' ' || c == '\t' || c == '\n' || c == '\r' || c == '\x0b' || c == '\x0c'

/-- Split off the maximal `\s*` prefix. -/
def wsSplit : List Char → List Char × List Char
  | [] => ([], [])
  | c :: cs =>
    if isPySpace c then
      let p := wsSplit cs
      (c :: p.1, p.2)
    else ([], c :: cs)

/-- Global substitution for `^PAT\s+(.*?)$` under `re.MULTILINE`: at a line
start, match the literal `pat`, a nonempty greedy whitespace run (which, like
`\s+`, may swallow newlines), then the rest of the current line; the
replacement is `mk content`.  The terminating newline is not consumed. -/
def subAnchoredAux (pat : List Char) (mk : List Char → List Char) : Nat → Bool → List Char → List Char
  | 0, _, s => s
  | n + 1, atStart, s =>
    match s with
    | [] => []
    | c :: cs =>
      if atStart && lpre pat s &&
          (match s.drop pat.length with
           | d :: _ => isPySpace d
           | [] => false) then
        let t := wsSplit (s.drop pat.length)
        let p := lineSplit t.2
        mk p.1 ++ subAnchoredAux pat mk n false p.2
      else c :: subAnchoredAux pat mk n (c == '\n') cs

def subAnchored (pat : String) (mk : List Char → List Char) (s : List Char) : List Char :=
  subAnchoredAux pat.data mk s.length true s

/-- Split off the maximal `\d*` prefix (ASCII digits). -/
def digitSplit : List Char → List Char × List Char
  | [] => ([], [])
  | c :: cs =>
    if c.isDigit then
      let p := digitSplit cs
      (c :: p.1, p.2)
    else ([], c :: cs)

/-- Global substitution for `^(\d+)\.\s+(.*?)$` under `re.MULTILINE` with
replacement `\1. \2` (numbered-list spacing normalisation). -/
def subNumberedAux : Nat → Bool → List Char → List Char
  | 0, _, s => s
  | n + 1, atStart, s =>
    match s with
    | [] => []
    | c :: cs =>
      let ds := digitSplit s
      if atStart && !ds.1.isEmpty &&
          (match ds.2 with
           | d :: e :: _ => d == '.' && isPySpace e
           | _ => false) then
        let t := wsSplit (ds.2.drop 1)
        let p := lineSplit t.2
        ds.1 ++ (String.data ". ") ++ p.1 ++ subNumberedAux n false p.2
      else c :: subNumberedAux n (c == '\n') cs

def subNumbered (s : List Char) : List Char :=
  subNumberedAux s.length true s

/-- Escape of one character, as performed by Python's `html.escape` with its
default `quote=True` (the five HTML metacharacters). -/
def escChar (c : Char) : List Char :=
  if c == '&' then String.data "&amp;"
  else if c == '<' then String.data "&lt;"
  else if c == '>' then String.data "&gt;"
  else if c == chQuot then String.data "&quot;"
  else if c == chApos then String.data "&#x27;"
  else [c]

/-- Model of `html.escape(text)` (`quote=True`). -/
def htmlEscape (s : String) : String :=
  ⟨(s.data.map escChar).flatten⟩

namespace MarkdownFormatter

/-- Model of `MarkdownFormatter.markdown_to_plaintext` from
`src/agent/markdown_formatter.py` (lines 13-41).  The `try` never fails on a
string input, so the fallback branch returning the untouched input is
unreachable here. -/
def markdown_to_plaintext (text : String) : String :=
  let t1 := subDelim "**" "**" "" "" false text.data
  let t2 := subDelim "*" "*" "" "" false t1
  let t3 := subDelim "_" "_" "" "" false t2
  let t4 := subDelim "```" "```" "" "" true t3
  let t5 := subDelim "`" "`" "" "" false t4
  let t6 := subLink (fun label url => label ++ String.data " (" ++ url ++ String.data ")") t5
  ⟨t6⟩

/-- The replacement text of the bullet-point rule in the source file is the
mojibake three-character sequence `â€¢` followed by a space (bytes
C3 A2 E2 82 AC C2 A2 in `markdown_formatter.py` line 78), reproduced here
verbatim. -/
def bulletReplacement : String := "â€¢ "

/-- The conversion pipeline of `markdown_to_html` after the initial HTML
escape: headers, bold, italic, code, links, bullets, numbered lists, in
source order (lines 60-81). -/
def convertAfterEscape (e : List Char) : List Char :=
  let h2 := subAnchored "##" (fun content => String.data "<b>" ++ content ++ String.data "</b>") e
  let h1 := subAnchored "#" (fun content => String.data "<b><u>" ++ content ++ String.data "</u></b>") h2
  let b2 := subDelim "**" "**" "<b>" "</b>" false h1
  let b1 := subDelim "*" "*" "<b>" "</b>" false b2
  let it := subDelim "_" "_" "<i>" "</i>" false b1
  let cf := subDelim "```" "```" "<pre>" "</pre>" true it
  let ci := subDelim "`" "`" "<code>" "</code>" false cf
  let lk := subLink
    (fun label url =>
      String.data "<a href=" ++ [chQuot] ++ url ++ [chQuot, '>'] ++ label ++ String.data "</a>") ci
  let bl := subAnchored "-" (fun content => bulletReplacement.data ++ content) lk
  subNumbered bl

/-- Model of `MarkdownFormatter.markdown_to_html` from
`src/agent/markdown_formatter.py` (lines 44-87): escape the HTML
metacharacters first, then run the conversions.  None of the steps can raise
on a string input, so the plaintext fallback branch (returning
`(markdown_to_plaintext text, False)`) is unreachable and the success flag is
always `true`. -/
def markdown_to_html (text : String) : String × Bool :=
  (⟨convertAfterEscape (htmlEscape text).data⟩, true)

/-- The renderer applied to an optional text, as it effectively behaves in
`get_response`: `markdown_to_html(None)` raises inside both converters, whose
`except` handlers end up returning the untouched `None` with flag `False`. -/
def renderOpt : Option String → Option String × Bool
  | none => (none, false)
  | some t => ((markdown_to_html t).1, (markdown_to_html t).2)

end MarkdownFormatter

/-- Truthiness of an optional string under Python's `if not x` test: both an
absent value (`None`) and the empty string are falsy. -/
def strTruthy (o : Option String) : Bool := !(o.getD "" == "")

/-- The three valid network names shared by the Sui adapters. -/
def validNetworks : List String := ["mainnet", "testnet", "devnet"]

/-- Natural number from a list of ASCII digits. -/
def natOfDigits (ds : List Char) : Nat :=
  ds.foldl (fun n c => n * 10 + (c.toNat - 48)) 0

/-- Python `str.strip()` with the default whitespace set. -/
def pyStrip (s : String) : String :=
  ⟨((s.data.dropWhile isPySpace).reverse.dropWhile isPySpace).reverse⟩

/-- Model of Python's `int(str)`: optional surrounding whitespace, optional
sign, then decimal digits.  (Digit-group underscores are not modelled; the
API balances are plain digit strings.) -/
def pyIntParse (s : String) : Option Int :=
  let core := (pyStrip s).data
  let signed : Bool × List Char :=
    match core with
    | '-' :: ds => (true, ds)
    | '+' :: ds => (false, ds)
    | ds => (false, ds)
  if signed.2.isEmpty || !signed.2.all Char.isDigit then none
  else if signed.1 then some (-(natOfDigits signed.2 : Int))
  else some (natOfDigits signed.2 : Int)

/-- Round the fraction `a / b` (with `b > 0`) to the nearest integer, ties to
even — the rounding the fixed-point `%.6f` rendering performs on the value.
Euclidean quotient/remainder make the quotient the floor for positive `b`. -/
def roundHalfEvenQuot (a b : Int) : Int :=
  let n := Int.ediv a b
  let r := Int.emod a b
  if 2 * r < b then n
  else if b < 2 * r then n + 1
  else if n % 2 = 0 then n else n + 1

/-- Insert a comma after every third character of a reversed digit list
(thousands grouping of `format(x, ',.6f')`). -/
def commaGroupRev : List Char → List Char
  | a :: b :: c :: d :: rest => a :: b :: c :: ',' :: commaGroupRev (d :: rest)
  | l => l

def commaGroup (s : String) : String :=
  ⟨(commaGroupRev s.data.reverse).reverse⟩

/-- Left-pad a numeral string with zeros to six digits. -/
def padSix (s : String) : String :=
  ⟨List.replicate (6 - s.length) '0' ++ s.data⟩

/-- Render `n / 10^6` in the style of Python's `format(x, ',.6f')`: six
decimal places, thousands separators in the integer part. -/
def formatMicro (n : Int) : String :=
  let m := n.natAbs
  let ip := m / 1000000
  let fp := m % 1000000
  (if n < 0 then "-" else "") ++ commaGroup (toString ip) ++ "." ++ padSix (toString fp)

namespace GetAccountDetailTool

/-- Model of `GetAccountDetailTool.format_balance` from
`src/tools/get_account.py` (lines 112-122): parse the raw balance as an
integer, rescale by `10 ** decimals` and render with six decimal places
(value rounded half-to-even); on a parse failure the raw input is returned
unchanged.  (The source computes `raw / 10**decimals` in binary floating
point; this model rounds the exact value `raw * 10^6 / 10^decimals`, which
agrees on the inputs cited by the spec.) -/
def format_balance (balance : String) (decimals : Int) : String :=
  match pyIntParse balance with
  | none => balance
  | some raw =>
    if 0 ≤ decimals then
      formatMicro (roundHalfEvenQuot (raw * 1000000) ((10 : Int) ^ decimals.toNat))
    else formatMicro (raw * 1000000 * (10 : Int) ^ (-decimals).toNat)

/-- One entry of the `tokens` list of the account-detail response; optional
fields model the presence checks the source performs on the JSON dict. -/
structure TokenEntry where
  balance : Option String
  decimals : Option Int
  symbol : Option String
  formatted_balance : Option String
deriving DecidableEq, Repr

/-- The `balance` sub-dict of the account-detail response. -/
structure BalanceInfo where
  totalBalance : Option String
deriving DecidableEq, Repr

/-- The `data` field of the account-detail response. -/
structure AccountData where
  balance : Option BalanceInfo
  tokens : Option (List TokenEntry)
deriving DecidableEq, Repr

/-- An account-detail API response (`none` models a JSON value without a
`data` dict). -/
structure ApiResult where
  data : Option AccountData
deriving DecidableEq, Repr

/-- Per-token formatting step of `execute` (lines 160-165): when both
`balance` and `decimals` are present, attach
`formatted_balance = (format_balance(balance, decimals) + " " + symbol).strip()`. -/
def formatToken (t : TokenEntry) : TokenEntry :=
  match t.balance, t.decimals with
  | some b, some d =>
    { t with
        formatted_balance := some (pyStrip (format_balance b d ++ " " ++ t.symbol.getD "")) }
  | _, _ => t

/-- The response post-processing of `execute` (lines 149-166): rescale the
total SUI balance with nine decimals and append `" SUI"`, and format every
entry of the token list in place.  The token list is neither truncated nor
reordered. -/
def postProcess (r : ApiResult) : ApiResult :=
  match r.data with
  | none => r
  | some d =>
    let d1 :=
      match d.balance with
      | some bi =>
        { d with
            balance := some { totalBalance := bi.totalBalance.map (fun tb => format_balance tb 9 ++ " SUI") } }
      | none => d
    let d2 :=
      match d1.tokens with
      | some ts => { d1 with tokens := some (ts.map formatToken) }
      | none => d1
    { r with data := some d2 }

/-- Outcome of `GetAccountDetailTool.execute`: either a local validation
error returned before any network traffic, or the outbound HTTP GET together
with the post-processed response (the raw response being supplied by the
environment). -/
inductive ExecAction where
  | localError (err : String)
  | httpGet (params : List (String × String)) (result : ApiResult)
deriving DecidableEq, Repr

/-- Model of `GetAccountDetailTool.execute` (lines 124-168): an explicitly
provided network outside the allowed set is rejected before the HTTP call;
otherwise the call is made and the response post-processed. -/
def execute (network : Option String) (response : ApiResult) : ExecAction :=
  if strTruthy network then
    let n := network.getD ""
    if !(validNetworks.contains n) then
      .localError "Invalid network. Please choose 'mainnet', 'testnet', or 'devnet'."
    else .httpGet [("network", n)] (postProcess response)
  else .httpGet [] (postProcess response)

/-- Token list of an `ExecAction`, for stating the capping claim. -/
def tokensOf : ExecAction → Option (List TokenEntry)
  | .localError _ => none
  | .httpGet _ r => r.data.bind AccountData.tokens

end GetAccountDetailTool

namespace CreateAccountTool

/-- The JSON payload of the account-creation POST; `user_id` is included only
when truthy (nonzero). -/
structure Payload where
  scheme : String
  network : String
  user_id : Option Int
deriving DecidableEq, Repr

/-- Outcome of `CreateAccountTool.execute`: local rejection or the outbound
HTTP POST with its payload. -/
inductive ExecAction where
  | localError (err : String)
  | httpPost (payload : Payload)
deriving DecidableEq, Repr

/-- Model of `CreateAccountTool.execute` from `src/tools/create_account.py`
(lines 46-86): an empty network and a network outside the allowed set are
rejected locally; the `scheme` argument is NOT validated and is sent to the
API as given. -/
def execute (network scheme : String) (user_id : Option Int) : ExecAction :=
  if network == "" then
    .localError "Network parameter is required. Please specify 'mainnet', 'testnet', or 'devnet'."
  else if !(validNetworks.contains network) then
    .localError "Invalid network. Please choose 'mainnet', 'testnet', or 'devnet'."
  else
    .httpPost ⟨scheme, network, if user_id.getD 0 == 0 then none else user_id⟩

end CreateAccountTool

namespace GetAccountTool

/-- Outcome of `GetAccountTool.execute`: local rejection or the outbound HTTP
GET with its query parameters. -/
inductive ExecAction where
  | localError (err : String)
  | httpGet (params : List (String × String))
deriving DecidableEq, Repr

/-- Model of `GetAccountTool.execute` from `src/tools/get_account.py`
(lines 45-78): a provided (truthy) network outside the allowed set is
rejected before the HTTP call; an absent network is simply omitted from the
query. -/
def execute (user_id : Int) (privatekey : Option String) (network : Option String) : ExecAction :=
  let p1 := [("user_id", toString user_id)]
  let p2 := if strTruthy privatekey then p1 ++ [("privatekey", privatekey.getD "")] else p1
  if strTruthy network then
    let n := network.getD ""
    if !(validNetworks.contains n) then
      .localError "Invalid network. Please choose 'mainnet', 'testnet', or 'devnet'."
    else .httpGet (p2 ++ [("network", n)])
  else .httpGet p2

end GetAccountTool

/-! Orchestrator: `OpenAIAgent.get_response` from `src/agent/openai_agent.py`. -/

namespace OpenAIAgent

/-- Lower-casing of one character as Python's `str.lower` performs it, on the
character ranges the reset-keyword test can meet: ASCII letters plus the
precomposed Vietnamese letter of the cancel keyword. -/
def pyCharLower (c : Char) : Char :=
  if 'A' ≤ c && c ≤ 'Z' then Char.ofNat (c.toNat + 32)
  else if c == 'Ủ' then 'ủ'
  else c

def pyLower (s : String) : String := ⟨s.data.map pyCharLower⟩

/-- The reset test of `get_response` (line 69): the lower-cased message
contains `"reset"`, `"clear"`, or `"hủy"`. -/
def hasResetKeyword (msg : String) : Bool :=
  containsSub "reset".data (pyLower msg).data || containsSub "clear".data (pyLower msg).data ||
    containsSub "hủy".data (pyLower msg).data

/-- The fixed apology returned on `asyncio.TimeoutError` (line 636). -/
def tooLongMessage : String :=
  "Sorry, the request took too long to process. Please try again or ask a simpler question."

/-- The fixed apology returned by the generic `except Exception` handler
(line 641). -/
def genericErrorMessage : String :=
  "Sorry, I encountered an error processing your request.\nPlease try again later or ask a different question."

/-- The prompt-for-network error of the `get_account_detail` branch
(line 511). -/
def selectNetworkPrompt : String :=
  "Please select a network to check the balance:\n\n- Mainnet\n- Testnet\n- Devnet\n\nPlease choose one of the networks above!"

/-- The prompt-for-address error of the `get_account_detail` branch
(line 547). -/
def provideAddressPrompt : String :=
  "Please provide a Sui wallet address to get account details."

/-- The fallback answer of the unknown-tool branch (line 620). -/
def defaultAnswer : String := "I couldn't process your request correctly."

/-- A tool adapter's return value as the orchestrator sees it: an opaque
success payload or an error dict carrying a message (`json.dumps` of these
dicts is modelled by storing the value itself in the tool turn). -/
inductive ToolResult where
  | payload (s : String)
  | error (msg : String)
deriving DecidableEq, Repr

/-- The parsed JSON arguments of a model-issued tool call; every `.get` the
orchestrator performs is an optional field here (`none` models an absent
key). -/
structure FnArgs where
  query : Option String := none
  count : Option Int := none
  token : Option String := none
  name : Option String := none
  symbol : Option String := none
  description : Option String := none
  image_url : Option String := none
  init_supply : Option Int := none
  wallet_address : Option String := none
  network : Option String := none
  scheme : Option String := none
  privatekey : Option String := none
  address : Option String := none
deriving DecidableEq, Repr

/-- One model-issued tool call (id, function name, parsed arguments). -/
structure ToolCallRec where
  id : String
  name : String
  args : FnArgs
deriving DecidableEq, Repr

inductive Role where
  | user
  | assistant
  | tool
deriving DecidableEq, Repr

/-- Content of a history turn: assistant/user text, or the serialized JSON of
a tool result. -/
inductive Content where
  | text (s : String)
  | jsonOf (r : ToolResult)
deriving DecidableEq, Repr

/-- One entry of `conversation_history`. -/
structure Turn where
  role : Role
  content : Option Content
  tool_calls : Option (List ToolCallRec) := none
  tool_call_id : Option String := none
deriving DecidableEq, Repr

def mkUserTurn (m : String) : Turn := ⟨.user, some (.text m), none, none⟩

/-- The first LLM response message: text content and/or tool calls. -/
structure AssistantMsg where
  content : Option String
  tool_calls : Option (List ToolCallRec)
deriving DecidableEq, Repr

/-- The assistant turn recorded after the first call (lines 218-222): content
is dropped when tool calls are present. -/
def mkAssistantFirst (m : AssistantMsg) : Turn :=
  ⟨.assistant,
   (match m.tool_calls with
    | some (_ :: _) => none
    | _ => m.content.map .text),
   m.tool_calls, none⟩

def mkToolTurn (callId : String) (r : ToolResult) : Turn :=
  ⟨.tool, some (.jsonOf r), none, some callId⟩

def mkAssistantText (c : Option String) : Turn :=
  ⟨.assistant, c.map .text, none, none⟩

/-- Outcome of the first LLM call.  It runs inside `asyncio.wait_for`
(lines 210-213), so exceeding the time budget surfaces as
`asyncio.TimeoutError` (`timeout`); any other failure of the call is
`failure`. -/
inductive FirstOutcome where
  | ok (m : AssistantMsg)
  | timeout
  | failure

/-- Outcome of the follow-up LLM call of a tool branch.  This call is NOT
wrapped in `asyncio.wait_for`; when the OpenAI client's own `timeout` elapses
the SDK raises `openai.APITimeoutError`, which subclasses
`APIConnectionError`, not `asyncio.TimeoutError` — so `timeout` and `failure`
are both caught by the generic `except Exception` handler. -/
inductive SecondOutcome where
  | ok (content : Option String)
  | timeout
  | failure

/-- Environment of one `get_response` turn: the two LLM call outcomes and the
abstracted adapter results, keyed by function name.  (Adapter `execute`
bodies never raise — they normalise failures into result dicts — so a single
`ToolResult` per tool models them; payload construction is covered by the
standalone adapter models above.) -/
structure Env where
  firstCall : FirstOutcome
  secondCall : SecondOutcome
  adapterResult : String → ToolResult

/-- Everything observable about one `get_response` turn: the returned pair,
the final conversation history, the history right after the Init phase
(append, truncate, reset), the adapter executes that ran, the number of LLM
requests issued, and the tool result fed back to the model (if any). -/
structure TurnResult where
  output : Option String × Bool
  history : List Turn
  historyAfterInit : List Turn
  adapters : List String
  llmCalls : Nat
  toolResult : Option ToolResult

/-- The Init phase of `get_response` (lines 62-71): append the user turn,
truncate to the most recent 10 entries when the length exceeds 10, then — if
the message carries a reset keyword — replace the whole history by the
single triggering turn. -/
def initHistory (hist : List Turn) (userMessage : String) : List Turn :=
  let h1 := hist ++ [mkUserTurn userMessage]
  let h2 := if 10 < h1.length then h1.drop (h1.length - 10) else h1
  if hasResetKeyword userMessage then [mkUserTurn userMessage] else h2

/-- The required-parameter check of the `create_token` branch (line 333). -/
def createTokenAllPresent (a : FnArgs) : Bool :=
  strTruthy a.name && strTruthy a.symbol && a.init_supply.isSome &&
    strTruthy a.wallet_address && strTruthy a.network

/-- The missing-parameter list of the `create_token` branch (lines 346-351),
in source order. -/
def createTokenMissing (a : FnArgs) : List String :=
  (if strTruthy a.name then [] else ["name"]) ++
    (if strTruthy a.symbol then [] else ["symbol"]) ++
    (if a.init_supply.isSome then [] else ["init_supply"]) ++
    (if strTruthy a.wallet_address then [] else ["wallet_address"]) ++
    (if strTruthy a.network then [] else ["network"])

/-- Partial turn outcome before the Init history is attached. -/
structure TurnCore where
  output : Option String × Bool
  history : List Turn
  adapters : List String
  llmCalls : Nat
  toolResult : Option ToolResult

/-- A tool branch that feeds the result to the model and renders the
follow-up text (every branch except the two `get_account_detail`
short-circuits): on a follow-up failure the generic handler fires with the
history as mutated so far. -/
def followupRender (env : Env) (h5 : List Turn) (ads : List String) (tr : ToolResult) : TurnCore :=
  match env.secondCall with
  | .ok c => ⟨MarkdownFormatter.renderOpt c, h5 ++ [mkAssistantText c], ads, 2, some tr⟩
  | .timeout => ⟨(some genericErrorMessage, false), h5, ads, 2, some tr⟩
  | .failure => ⟨(some genericErrorMessage, false), h5, ads, 2, some tr⟩

/-- The `get_account_detail` short-circuits (lines 507-543 and 545-578):
same follow-up call, but the raw text is returned with flag `False`, without
the renderer. -/
def followupRaw (env : Env) (h5 : List Turn) (ads : List String) (tr : ToolResult) : TurnCore :=
  match env.secondCall with
  | .ok c => ⟨(c, false), h5 ++ [mkAssistantText c], ads, 2, some tr⟩
  | .timeout => ⟨(some genericErrorMessage, false), h5, ads, 2, some tr⟩
  | .failure => ⟨(some genericErrorMessage, false), h5, ads, 2, some tr⟩

/-- The tool-dispatch chain of `get_response` (lines 233-620), branching on
the first tool call's function name. -/
def dispatch (env : Env) (mcontent : Option String) (h4 : List Turn) (tc : ToolCallRec) : TurnCore :=
  if tc.name == "search_web" then
    let r := env.adapterResult "search_web"
    followupRender env (h4 ++ [mkToolTurn tc.id r]) ["search_web"] r
  else if tc.name == "get_token_price" then
    let r := env.adapterResult "get_token_price"
    followupRender env (h4 ++ [mkToolTurn tc.id r]) ["get_token_price"] r
  else if tc.name == "create_token" then
    if createTokenAllPresent tc.args then
      let r := env.adapterResult "create_token"
      followupRender env (h4 ++ [mkToolTurn tc.id r]) ["create_token"] r
    else
      let r := ToolResult.error
        ("Missing required parameters: " ++ String.intercalate ", " (createTokenMissing tc.args))
      followupRender env (h4 ++ [mkToolTurn tc.id r]) [] r
  else if tc.name == "create_account" then
    if !strTruthy tc.args.network then
      let r := ToolResult.error
        "Network parameter is required. Please specify 'mainnet', 'testnet', or 'devnet'."
      followupRender env (h4 ++ [mkToolTurn tc.id r]) [] r
    else
      let r := env.adapterResult "create_account"
      followupRender env (h4 ++ [mkToolTurn tc.id r]) ["create_account"] r
  else if tc.name == "get_account_by_user" then
    if !strTruthy tc.args.network then
      let r := ToolResult.error "Vui lòng chọn mạng lưới để kiểm tra (mainnet/testnet/devnet)."
      followupRender env (h4 ++ [mkToolTurn tc.id r]) [] r
    else
      let r := env.adapterResult "get_account_by_user"
      followupRender env (h4 ++ [mkToolTurn tc.id r]) ["get_account_by_user"] r
  else if tc.name == "get_account_detail" then
    if !strTruthy tc.args.network then
      let r := ToolResult.error selectNetworkPrompt
      followupRaw env (h4 ++ [mkToolTurn tc.id r]) [] r
    else if !strTruthy tc.args.address then
      let r := ToolResult.error provideAddressPrompt
      followupRaw env (h4 ++ [mkToolTurn tc.id r]) [] r
    else
      let r := env.adapterResult "get_account_detail"
      followupRender env (h4 ++ [mkToolTurn tc.id r]) ["get_account_detail"] r
  else
    let ai :=
      match mcontent with
      | some c => if c == "" then defaultAnswer else c
      | none => defaultAnswer
    ⟨MarkdownFormatter.renderOpt (some ai), h4, [], 1, none⟩

/-- The post-Init body of `get_response`: first LLM call, optional tool
dispatch, render. -/
def respond (env : Env) (h3 : List Turn) : TurnCore :=
  match env.firstCall with
  | .timeout => ⟨(some tooLongMessage, false), h3, [], 1, none⟩
  | .failure => ⟨(some genericErrorMessage, false), h3, [], 1, none⟩
  | .ok m =>
    let h4 := h3 ++ [mkAssistantFirst m]
    match m.tool_calls with
    | some (tc :: _) => dispatch env m.content h4 tc
    | _ => ⟨MarkdownFormatter.renderOpt m.content, h4, [], 1, none⟩

/-- Model of `OpenAIAgent.get_response` (lines 44-641) for one user turn. -/
def getResponse (env : Env) (hist : List Turn) (userMessage : String) : TurnResult :=
  let h3 := initHistory hist userMessage
  let c := respond env h3
  ⟨c.output, c.history, h3, c.adapters, c.llmCalls, c.toolResult⟩

/-- Iterated turns of one agent instance, starting from the empty history of
`__init__`. -/
def runTurns (script : List (Env × String)) : List Turn :=
  script.foldl (fun h p => (getResponse p.1 h p.2).history) []

end OpenAIAgent

/-! Helper lemmas. -/

theorem stringMkEq (s : String) : (⟨s.data⟩ : String) = s := by
  cases s
  rfl

theorem subDelimAux_id (oc : Char) (od cl pre post : List Char) (dA : Bool) :
    ∀ (n : Nat) (s : List Char), (∀ x ∈ s, x ≠ oc) →
      subDelimAux (oc :: od) cl pre post dA n s = s := by
  intro n
  induction n with
  | zero => intro s _; rfl
  | succ n ih =>
    intro s h
    cases s with
    | nil => rfl
    | cons c cs =>
      have hc : (oc == c) = false := by
        have hne := h c (List.mem_cons_self c cs)
        simp only [beq_eq_false_iff_ne, ne_eq]
        exact fun e => hne e.symm
      have hrest := ih cs fun x hx => h x (List.mem_cons_of_mem c hx)
      simp [subDelimAux, lpre, hc, hrest]

theorem subLinkAux_id (repl : List Char → List Char → List Char) :
    ∀ (n : Nat) (s : List Char), (∀ x ∈ s, x ≠ '[') → subLinkAux repl n s = s := by
  intro n
  induction n with
  | zero => intro s _; rfl
  | succ n ih =>
    intro s h
    cases s with
    | nil => rfl
    | cons c cs =>
      have hc : (c == '[') = false := by
        simp only [beq_eq_false_iff_ne, ne_eq]
        exact h c (List.mem_cons_self c cs)
      have hrest := ih cs fun x hx => h x (List.mem_cons_of_mem c hx)
      simp [subLinkAux, hc, hrest]

theorem escChar_no_lt (c : Char) : '<' ∉ escChar c := by
  unfold escChar
  split_ifs with h1 h2 h3 h4 h5 <;> intro hmem
  · revert hmem; decide
  · revert hmem; decide
  · revert hmem; decide
  · revert hmem; decide
  · revert hmem; decide
  · rw [List.mem_singleton] at hmem
    rw [← hmem] at h2
    simp at h2

theorem escChar_no_gt (c : Char) : '>' ∉ escChar c := by
  unfold escChar
  split_ifs with h1 h2 h3 h4 h5 <;> intro hmem
  · revert hmem; decide
  · revert hmem; decide
  · revert hmem; decide
  · revert hmem; decide
  · revert hmem; decide
  · rw [List.mem_singleton] at hmem
    rw [← hmem] at h3
    simp at h3

theorem htmlEscape_no_raw_markup (t : String) :
    '<' ∉ (htmlEscape t).data ∧ '>' ∉ (htmlEscape t).data := by
  constructor <;> intro hmem
  · rcases List.mem_flatten.1 hmem with ⟨a, ha, hx⟩
    rcases List.mem_map.1 ha with ⟨c, _, rfl⟩
    exact escChar_no_lt c hx
  · rcases List.mem_flatten.1 hmem with ⟨a, ha, hx⟩
    rcases List.mem_map.1 ha with ⟨c, _, rfl⟩
    exact escChar_no_gt c hx

namespace OpenAIAgent

theorem initHistory_length_le (hist : List Turn) (msg : String) :
    (initHistory hist msg).length ≤ 10 := by
  unfold initHistory
  dsimp only
  split
  · simp
  · split
    · simp only [List.length_drop]
      omega
    · rename_i h
      omega

theorem followupRender_history (env : Env) (h5 : List Turn) (ads : List String)
    (tr : ToolResult) : (followupRender env h5 ads tr).history.length ≤ h5.length + 1 := by
  cases h : env.secondCall <;> simp [followupRender, h]

theorem followupRaw_history (env : Env) (h5 : List Turn) (ads : List String)
    (tr : ToolResult) : (followupRaw env h5 ads tr).history.length ≤ h5.length + 1 := by
  cases h : env.secondCall <;> simp [followupRaw, h]

theorem followupRender_history_app (env : Env) (h4 : List Turn) (t : Turn) (ads : List String)
    (tr : ToolResult) : (followupRender env (h4 ++ [t]) ads tr).history.length ≤ h4.length + 2 := by
  have h := followupRender_history env (h4 ++ [t]) ads tr
  simp only [List.length_append, List.length_singleton] at h
  omega

theorem followupRaw_history_app (env : Env) (h4 : List Turn) (t : Turn) (ads : List String)
    (tr : ToolResult) : (followupRaw env (h4 ++ [t]) ads tr).history.length ≤ h4.length + 2 := by
  have h := followupRaw_history env (h4 ++ [t]) ads tr
  simp only [List.length_append, List.length_singleton] at h
  omega

theorem dispatch_history (env : Env) (mc : Option String) (h4 : List Turn) (tc : ToolCallRec) :
    (dispatch env mc h4 tc).history.length ≤ h4.length + 2 := by
  unfold dispatch
  split_ifs <;>
    first
      | apply followupRender_history_app
      | apply followupRaw_history_app
      | simp

theorem respond_history (env : Env) (h3 : List Turn) :
    (respond env h3).history.length ≤ h3.length + 3 := by
  unfold respond
  cases h : env.firstCall with
  | timeout => simp
  | failure => simp
  | ok m =>
    dsimp only
    split
    · rename_i tc rest _
      have hd := dispatch_history env m.content (h3 ++ [mkAssistantFirst m]) tc
      simp only [List.length_append, List.length_singleton] at hd
      omega
    · simp

theorem runTurnsAux_length (script : List (Env × String)) :
    ∀ h : List Turn, h.length ≤ 13 →
      (script.foldl (fun h p => (getResponse p.1 h p.2).history) h).length ≤ 13 := by
  induction script with
  | nil => intro h hl; simpa using hl
  | cons p rest ih =>
    intro h _
    simp only [List.foldl_cons]
    apply ih
    have h1 := respond_history p.1 (initHistory h p.2)
    have h2 := initHistory_length_le h p.2
    have h3 : (getResponse p.1 h p.2).history = (respond p.1 (initHistory h p.2)).history := rfl
    rw [h3]
    omega

end OpenAIAgent

/-! Claim C9 — idempotence of `markdown_to_plaintext`. -/

/-- C9 counterexample: `markdown_to_plaintext` is NOT idempotent.  On the
input `[a](b[c](d)e)` one application yields `a (b[c](d)e)` (the lazy url
group swallows the inner link), and a second application rewrites the inner
link that the first pass left behind, yielding `a (bc (d)e)`. -/
theorem markdown_to_plaintext_not_idempotent :
    MarkdownFormatter.markdown_to_plaintext
        (MarkdownFormatter.markdown_to_plaintext "[a](b[c](d)e)") ≠
      MarkdownFormatter.markdown_to_plaintext "[a](b[c](d)e)" := by
  decide

/-- C9 (amended): `markdown_to_plaintext` is the identity — hence idempotent
— on inputs containing none of the markdown delimiter characters
(asterisk, underscore, backtick, opening bracket); in general a second
application can rewrite nested link structures further. -/
theorem markdown_to_plaintext_idempotent_on_plain (s : String)
    (h : ∀ c ∈ s.data, c ≠ '*' ∧ c ≠ '_' ∧ c ≠ chBtick ∧ c ≠ '[') :
    MarkdownFormatter.markdown_to_plaintext s = s ∧
      MarkdownFormatter.markdown_to_plaintext (MarkdownFormatter.markdown_to_plaintext s) =
        MarkdownFormatter.markdown_to_plaintext s := by
  have hid : MarkdownFormatter.markdown_to_plaintext s = s := by
    unfold MarkdownFormatter.markdown_to_plaintext
    dsimp only
    rw [show subDelim "**" "**" "" "" false s.data = s.data from
        subDelimAux_id '*' _ _ _ _ _ _ _ fun x hx => (h x hx).1]
    rw [show subDelim "*" "*" "" "" false s.data = s.data from
        subDelimAux_id '*' _ _ _ _ _ _ _ fun x hx => (h x hx).1]
    rw [show subDelim "_" "_" "" "" false s.data = s.data from
        subDelimAux_id '_' _ _ _ _ _ _ _ fun x hx => (h x hx).2.1]
    rw [show subDelim "```" "```" "" "" true s.data = s.data from
        subDelimAux_id chBtick _ _ _ _ _ _ _ fun x hx => (h x hx).2.2.1]
    rw [show subDelim "`" "`" "" "" false s.data = s.data from
        subDelimAux_id chBtick _ _ _ _ _ _ _ fun x hx => (h x hx).2.2.1]
    rw [show subLink (fun label url => label ++ String.data " (" ++ url ++ String.data ")") s.data
          = s.data from subLinkAux_id _ _ _ fun x hx => (h x hx).2.2.2]
  refine ⟨hid, ?_⟩
  rw [hid, hid]

/-- C9 witness: the idempotence theorem applied at a concrete plain string. -/
theorem markdown_to_plaintext_idempotent_witness :
    MarkdownFormatter.markdown_to_plaintext "plain text, no markup." = "plain text, no markup." ∧
      MarkdownFormatter.markdown_to_plaintext
          (MarkdownFormatter.markdown_to_plaintext "plain text, no markup.") =
        MarkdownFormatter.markdown_to_plaintext "plain text, no markup." :=
  markdown_to_plaintext_idempotent_on_plain "plain text, no markup." (by decide)

/-! Claim C6 — ordering inside `markdown_to_html`. -/

/-- C6 counterexample: the inline-code rule is not prevented from firing
inside fenced content.  A fenced block whose content carries a
single-backtick pair is first turned into a `pre` block, after which the
inline rule still converts the inner pair to a `code` tag. -/
theorem markdown_to_html_inline_in_fence :
    MarkdownFormatter.markdown_to_html "```a `b` c```" =
      ("<pre>a <code>b</code> c</pre>", true) := by
  decide

/-- C6 (amended): `markdown_to_html` escapes the HTML metacharacters before
any markdown conversion (the escaped text contains no raw angle bracket, so
literal markup in the input cannot survive as markup), and converts fenced
blocks to `pre` before the single-backtick rule runs, so the fence
delimiters are never consumed by the inline rule — a fenced block with no
inner backtick pair converts exactly to its `pre` block,
`render("```a\nb```") = ("<pre>a\nb</pre>", true) — though single-backtick
pairs nested in fenced content are still converted afterwards.  A literal
`<b>` in the input comes out escaped while markdown still converts. -/
theorem markdown_to_html_escape_and_order :
    (∀ t, MarkdownFormatter.markdown_to_html t =
        (⟨MarkdownFormatter.convertAfterEscape (htmlEscape t).data⟩, true)) ∧
      (∀ t, '<' ∉ (htmlEscape t).data ∧ '>' ∉ (htmlEscape t).data) ∧
      MarkdownFormatter.markdown_to_html "```a\nb```" = ("<pre>a\nb</pre>", true) ∧
      MarkdownFormatter.markdown_to_html "<b>x</b> & `y`" =
        ("&lt;b&gt;x&lt;/b&gt; &amp; <code>y</code>", true) := by
  refine ⟨fun t => rfl, htmlEscape_no_raw_markup, by decide, by decide⟩

/-- C6 witness: the fenced-block conversion instance extracted from the
amended theorem. -/
theorem markdown_to_html_escape_and_order_witness :
    MarkdownFormatter.markdown_to_html "```a\nb```" = ("<pre>a\nb</pre>", true) ∧
      '<' ∉ (htmlEscape "<b>").data :=
  ⟨markdown_to_html_escape_and_order.2.2.1, (markdown_to_html_escape_and_order.2.1 "<b>").1⟩

/-! Claim C7 — account-detail post-processing. -/

/-- A six-entry token list for exercising the (absent) capping of the
account-detail response. -/
def c7Tokens : List GetAccountDetailTool.TokenEntry :=
  [⟨some "1000000", some 6, some "T1", none⟩, ⟨some "2000000", some 6, some "T2", none⟩,
   ⟨some "3000000", some 6, some "T3", none⟩, ⟨some "4000000", some 6, some "T4", none⟩,
   ⟨some "5000000", some 6, some "T5", none⟩, ⟨some "6000000", some 6, some "T6", none⟩]

def c7Response : GetAccountDetailTool.ApiResult :=
  ⟨some ⟨some ⟨some "2500000000"⟩, some c7Tokens⟩⟩

/-- C7 counterexample: the token list of the account-detail response is NOT
capped to the first 5 entries — a six-token response keeps all six entries
(in order) after `execute`'s post-processing. -/
theorem get_account_detail_no_token_cap :
    (GetAccountDetailTool.tokensOf
        (GetAccountDetailTool.execute (some "mainnet") c7Response)).map List.length = some 6 ∧
      (GetAccountDetailTool.tokensOf
          (GetAccountDetailTool.execute (some "mainnet") c7Response)).map
          (fun l => l.map GetAccountDetailTool.TokenEntry.symbol) =
        some [some "T1", some "T2", some "T3", some "T4", some "T5", some "T6"] := by
  constructor
  · decide
  · decide

/-- C7 (amended): the account-detail adapter rescales every balance by its
per-asset decimal exponent and renders it with fixed six-decimal precision —
raw `"1234567890"` with `decimals=9` renders as `"1.234568"` — and the token
list is formatted entry by entry in the order received, with every entry kept
(no cap to 5, no resort). -/
theorem get_account_detail_postprocess (bi : Option GetAccountDetailTool.BalanceInfo)
    (ts : List GetAccountDetailTool.TokenEntry) :
    GetAccountDetailTool.tokensOf
        (GetAccountDetailTool.execute (some "mainnet") ⟨some ⟨bi, some ts⟩⟩) =
        some (ts.map GetAccountDetailTool.formatToken) ∧
      (ts.map GetAccountDetailTool.formatToken).length = ts.length ∧
      GetAccountDetailTool.format_balance "1234567890" 9 = "1.234568" := by
  refine ⟨?_, List.length_map ts _, by decide⟩
  cases bi <;>
    simp [GetAccountDetailTool.execute, GetAccountDetailTool.postProcess,
      GetAccountDetailTool.tokensOf, strTruthy, validNetworks]

/-- C7 witness: the amended post-processing theorem at the concrete six-token
response. -/
theorem get_account_detail_postprocess_witness :
    GetAccountDetailTool.tokensOf
        (GetAccountDetailTool.execute (some "mainnet") ⟨some ⟨none, some c7Tokens⟩⟩) =
        some (c7Tokens.map GetAccountDetailTool.formatToken) ∧
      (c7Tokens.map GetAccountDetailTool.formatToken).length = c7Tokens.length ∧
      GetAccountDetailTool.format_balance "1234567890" 9 = "1.234568" :=
  get_account_detail_postprocess none c7Tokens

/-! Claim C8 — local validation in the adapters. -/

/-- C8 counterexample: an out-of-range `scheme` is NOT rejected locally by
`CreateAccountTool.execute` — the outbound HTTP POST is performed with the
invalid scheme in its payload. -/
theorem create_account_scheme_not_validated :
    CreateAccountTool.execute "mainnet" "rsa" none =
      CreateAccountTool.ExecAction.httpPost ⟨"rsa", "mainnet", none⟩ := by
  decide

/-- C8 (amended): an out-of-range `network` is rejected locally — with a
descriptive error and no outbound HTTP call — by the create-account,
get-account and get-account-detail adapters; the `scheme` argument, by
contrast, is never validated locally and is passed through to the HTTP
payload as given. -/
theorem network_validated_locally (n scheme : String) (uid : Option Int) (uid2 : Int)
    (pk : Option String) (resp : GetAccountDetailTool.ApiResult)
    (hne : n ≠ "") (hnv : n ∉ validNetworks) :
    CreateAccountTool.execute n scheme uid =
        CreateAccountTool.ExecAction.localError
          "Invalid network. Please choose 'mainnet', 'testnet', or 'devnet'." ∧
      GetAccountTool.execute uid2 pk (some n) =
        GetAccountTool.ExecAction.localError
          "Invalid network. Please choose 'mainnet', 'testnet', or 'devnet'." ∧
      GetAccountDetailTool.execute (some n) resp =
        GetAccountDetailTool.ExecAction.localError
          "Invalid network. Please choose 'mainnet', 'testnet', or 'devnet'." := by
  refine ⟨?_, ?_, ?_⟩
  · simp [CreateAccountTool.execute, hne]
    exact hnv
  · simp [GetAccountTool.execute, strTruthy, hne]
    exact hnv
  · simp [GetAccountDetailTool.execute, strTruthy, hne]
    exact hnv

/-- C8 witness: the amended theorem applied at the concrete out-of-range
network `"goerli"`. -/
theorem network_validated_locally_witness :
    CreateAccountTool.execute "goerli" "ed25519" none =
        CreateAccountTool.ExecAction.localError
          "Invalid network. Please choose 'mainnet', 'testnet', or 'devnet'." ∧
      GetAccountTool.execute 7 none (some "goerli") =
        GetAccountTool.ExecAction.localError
          "Invalid network. Please choose 'mainnet', 'testnet', or 'devnet'." ∧
      GetAccountDetailTool.execute (some "goerli") ⟨none⟩ =
        GetAccountDetailTool.ExecAction.localError
          "Invalid network. Please choose 'mainnet', 'testnet', or 'devnet'." :=
  network_validated_locally "goerli" "ed25519" none 7 none ⟨none⟩ (by decide) (by decide)

/-! Claim C1 — conversation-history bounds. -/

/-- A turn environment in which the model issues a `search_web` tool call and
every call succeeds, so the orchestrator performs all four appends of a tool
turn. -/
def c1Env : OpenAIAgent.Env :=
  { firstCall := .ok ⟨none, some [⟨"call1", "search_web", {}⟩]⟩,
    secondCall := .ok (some "answer"),
    adapterResult := fun _ => .payload "result" }

def c1Script : List (OpenAIAgent.Env × String) := [(c1Env, "hi"), (c1Env, "hi"), (c1Env, "hi")]

/-- C1 counterexample: the history DOES exceed 10 entries.  The truncation to
10 runs only once per turn, right after the user append, while the three
later appends of a tool-using turn run unchecked: three successful
`search_web` turns from the empty history leave 12 entries. -/
theorem conversation_history_exceeds_ten :
    (OpenAIAgent.runTurns c1Script).length = 12 ∧
      ¬(OpenAIAgent.runTurns c1Script).length ≤ 10 := by
  constructor
  · decide
  · decide

/-- C1 (amended): the history length is at most 10 immediately after the Init
phase (user append, truncation, reset check) of every turn; the later appends
of the same turn (assistant tool-call turn, tool-result turn, final assistant
turn) can push it to at most 13, and 13 also bounds the history after any
number of successive user turns. -/
theorem conversation_history_bounds :
    (∀ (env : OmniAgent.OpenAIAgent.Env) (hist : List OpenAIAgent.Turn) (msg : String),
        (OpenAIAgent.getResponse env hist msg).historyAfterInit.length ≤ 10 ∧
          (OpenAIAgent.getResponse env hist msg).history.length ≤ 13) ∧
      ∀ script, (OpenAIAgent.runTurns script).length ≤ 13 := by
  constructor
  · intro env hist msg
    refine ⟨OpenAIAgent.initHistory_length_le hist msg, ?_⟩
    have h1 := OpenAIAgent.respond_history env (OpenAIAgent.initHistory hist msg)
    have h2 := OpenAIAgent.initHistory_length_le hist msg
    have h3 : (OpenAIAgent.getResponse env hist msg).history =
        (OpenAIAgent.respond env (OpenAIAgent.initHistory hist msg)).history := rfl
    rw [h3]
    omega
  · intro script
    exact OpenAIAgent.runTurnsAux_length script [] (by simp)

/-- C1 witness: the amended bounds at a concrete tool-using turn. -/
theorem conversation_history_bounds_witness :
    (OpenAIAgent.getResponse c1Env [] "hi").historyAfterInit.length ≤ 10 ∧
      (OpenAIAgent.getResponse c1Env [] "hi").history.length ≤ 13 :=
  conversation_history_bounds.1 c1Env [] "hi"

/-! Claim C5 — reset keywords replace the history. -/

/-- C5: when the lower-cased incoming message contains a reset keyword
(`reset`, `clear`, or the Vietnamese cancel word), the Init phase leaves the
conversation history equal to the single-element sequence holding just the
triggering user turn — before the LLM call and any tool dispatch of the turn
— so its length is exactly 1. -/
theorem reset_replaces_history (env : OpenAIAgent.Env) (hist : List OpenAIAgent.Turn)
    (msg : String) (h : OpenAIAgent.hasResetKeyword msg = true) :
    (OpenAIAgent.getResponse env hist msg).historyAfterInit = [OpenAIAgent.mkUserTurn msg] ∧
      (OpenAIAgent.getResponse env hist msg).historyAfterInit.length = 1 := by
  have he : (OpenAIAgent.getResponse env hist msg).historyAfterInit =
      OpenAIAgent.initHistory hist msg := rfl
  rw [he]
  unfold OpenAIAgent.initHistory
  simp [h]

/-- A turn environment with a direct (tool-free) model answer. -/
def c5Env : OpenAIAgent.Env :=
  { firstCall := .ok ⟨some "done", none⟩,
    secondCall := .ok (some "unused"),
    adapterResult := fun _ => .payload "result" }

/-- C5 witness: a mixed-case reset message wipes a nonempty history. -/
theorem reset_replaces_history_witness :
    (OpenAIAgent.getResponse c5Env [OpenAIAgent.mkUserTurn "earlier"]
        "please RESET now").historyAfterInit = [OpenAIAgent.mkUserTurn "please RESET now"] ∧
      (OpenAIAgent.getResponse c5Env [OpenAIAgent.mkUserTurn "earlier"]
          "please RESET now").historyAfterInit.length = 1 :=
  reset_replaces_history c5Env [OpenAIAgent.mkUserTurn "earlier"] "please RESET now" (by decide)

/-! Claim C4 — create_token required-field validation. -/

theorem mem_createTokenMissing (a : OpenAIAgent.FnArgs) (f : String) :
    f ∈ OpenAIAgent.createTokenMissing a ↔
      (f = "name" ∧ strTruthy a.name = false) ∨
        (f = "symbol" ∧ strTruthy a.symbol = false) ∨
        (f = "init_supply" ∧ a.init_supply.isSome = false) ∨
        (f = "wallet_address" ∧ strTruthy a.wallet_address = false) ∨
        (f = "network" ∧ strTruthy a.network = false) := by
  unfold OpenAIAgent.createTokenMissing
  cases h1 : strTruthy a.name <;> cases h2 : strTruthy a.symbol <;>
    cases h3 : a.init_supply.isSome <;> cases h4 : strTruthy a.wallet_address <;>
      cases h5 : strTruthy a.network <;> simp

/-- C4: a `create_token` tool call with any of the five required fields
absent (or empty) never reaches the adapter — no adapter `execute` runs and
hence no HTTP call — and the error ToolResult fed back to the model lists
exactly the missing field names, comma-joined, in the fixed source order. -/
theorem create_token_missing_fields (env : OpenAIAgent.Env) (hist : List OpenAIAgent.Turn)
    (msg : String) (m : OpenAIAgent.AssistantMsg) (tc : OpenAIAgent.ToolCallRec)
    (rest : List OpenAIAgent.ToolCallRec)
    (hfc : env.firstCall = .ok m) (htc : m.tool_calls = some (tc :: rest))
    (hname : tc.name = "create_token")
    (hmiss : OpenAIAgent.createTokenAllPresent tc.args = false) :
    (OpenAIAgent.getResponse env hist msg).adapters = [] ∧
      (OpenAIAgent.getResponse env hist msg).toolResult =
        some (.error ("Missing required parameters: " ++
          String.intercalate ", " (OpenAIAgent.createTokenMissing tc.args))) ∧
      ∀ f, f ∈ OpenAIAgent.createTokenMissing tc.args ↔
        (f = "name" ∧ strTruthy tc.args.name = false) ∨
          (f = "symbol" ∧ strTruthy tc.args.symbol = false) ∨
          (f = "init_supply" ∧ tc.args.init_supply.isSome = false) ∨
          (f = "wallet_address" ∧ strTruthy tc.args.wallet_address = false) ∨
          (f = "network" ∧ strTruthy tc.args.network = false) := by
  refine ⟨?_, ?_, mem_createTokenMissing tc.args⟩ <;>
    cases hsc : env.secondCall <;>
      simp [OpenAIAgent.getResponse, OpenAIAgent.respond, hfc, htc, OpenAIAgent.dispatch, hname,
        hmiss, hsc, OpenAIAgent.followupRender]

/-- A turn environment whose model response is a `create_token` call carrying
only a name and an initial supply. -/
def c4Env : OpenAIAgent.Env :=
  { firstCall := .ok ⟨none,
      some [⟨"c1", "create_token", { name := some "Tok", init_supply := some 5 }⟩]⟩,
    secondCall := .ok (some "need more info"),
    adapterResult := fun _ => .payload "created" }

/-- C4 witness: with `symbol`, `wallet_address` and `network` absent, no
adapter runs and the error lists exactly those three fields. -/
theorem create_token_missing_fields_witness :
    (OpenAIAgent.getResponse c4Env [] "make token").adapters = [] ∧
      (OpenAIAgent.getResponse c4Env [] "make token").toolResult =
        some (.error "Missing required parameters: symbol, wallet_address, network") := by
  have h := create_token_missing_fields c4Env [] "make token" _ _ _ rfl rfl rfl (by decide)
  refine ⟨h.1, ?_⟩
  rw [h.2.1]
  decide

/-! Claim C2 — the get_account_detail short-circuits and the second LLM call. -/

/-- A turn environment whose model response is a `get_account_detail` call
with an address but no network. -/
def c2Env : OpenAIAgent.Env :=
  { firstCall := .ok ⟨none, some [⟨"c1", "get_account_detail", { address := some "0xabc" }⟩]⟩,
    secondCall := .ok (some "please pick a network"),
    adapterResult := fun _ => .payload "detail" }

/-- C2 counterexample: the missing-network short-circuit of
`get_account_detail` does NOT skip the second LLM round-trip — the adapter is
indeed never invoked, but two LLM requests are issued in the turn. -/
theorem get_account_detail_second_roundtrip :
    (OpenAIAgent.getResponse c2Env [] "check balance").adapters = [] ∧
      (OpenAIAgent.getResponse c2Env [] "check balance").llmCalls = 2 := by
  constructor
  · decide
  · decide

/-- C2 (amended): a `get_account_detail` call lacking `network` (or, with a
network present, lacking `address`) short-circuits with the user-facing
prompt-for-input ToolResult and returns its follow-up text directly to the
caller (flag `False`, no renderer) without ever invoking the adapter's
execute — but it still performs the second LLM round-trip that produces the
follow-up text. -/
theorem get_account_detail_shortcircuit (env : OpenAIAgent.Env) (hist : List OpenAIAgent.Turn)
    (msg : String) (m : OpenAIAgent.AssistantMsg) (tc : OpenAIAgent.ToolCallRec)
    (rest : List OpenAIAgent.ToolCallRec) (c : Option String)
    (hfc : env.firstCall = .ok m) (htc : m.tool_calls = some (tc :: rest))
    (hname : tc.name = "get_account_detail") (hsc : env.secondCall = .ok c) :
    (strTruthy tc.args.network = false →
      (OpenAIAgent.getResponse env hist msg).adapters = [] ∧
        (OpenAIAgent.getResponse env hist msg).llmCalls = 2 ∧
        (OpenAIAgent.getResponse env hist msg).toolResult =
          some (.error OpenAIAgent.selectNetworkPrompt) ∧
        (OpenAIAgent.getResponse env hist msg).output = (c, false)) ∧
      (strTruthy tc.args.network = true → strTruthy tc.args.address = false →
        (OpenAIAgent.getResponse env hist msg).adapters = [] ∧
          (OpenAIAgent.getResponse env hist msg).llmCalls = 2 ∧
          (OpenAIAgent.getResponse env hist msg).toolResult =
            some (.error OpenAIAgent.provideAddressPrompt) ∧
          (OpenAIAgent.getResponse env hist msg).output = (c, false)) := by
  constructor
  · intro hnet
    simp [OpenAIAgent.getResponse, OpenAIAgent.respond, hfc, htc, OpenAIAgent.dispatch, hname,
      hnet, hsc, OpenAIAgent.followupRaw]
  · intro hnet haddr
    simp [OpenAIAgent.getResponse, OpenAIAgent.respond, hfc, htc, OpenAIAgent.dispatch, hname,
      hnet, haddr, hsc, OpenAIAgent.followupRaw]

/-- C2 witness: the amended theorem at a concrete missing-network call. -/
theorem get_account_detail_shortcircuit_witness :
    (OpenAIAgent.getResponse c2Env [] "check balance").adapters = [] ∧
      (OpenAIAgent.getResponse c2Env [] "check balance").llmCalls = 2 ∧
      (OpenAIAgent.getResponse c2Env [] "check balance").toolResult =
        some (.error OpenAIAgent.selectNetworkPrompt) ∧
      (OpenAIAgent.getResponse c2Env [] "check balance").output =
        (some "please pick a network", false) :=
  (get_account_detail_shortcircuit c2Env [] "check balance" _ _ _ _ rfl rfl rfl rfl).1 rfl

/-! Claim C3 — timeout and failure messages. -/

/-- A turn environment whose tool follow-up call times out (the SDK raises
its own timeout error there, the call not being under `asyncio.wait_for`). -/
def c3Env : OpenAIAgent.Env :=
  { firstCall := .ok ⟨none, some [⟨"c1", "search_web", { query := some "news" }⟩]⟩,
    secondCall := .timeout,
    adapterResult := fun _ => .payload "result" }

/-- A turn environment whose first call times out under `asyncio.wait_for`. -/
def c3TimeoutEnv : OpenAIAgent.Env :=
  { firstCall := .timeout,
    secondCall := .ok (some "unused"),
    adapterResult := fun _ => .payload "result" }

/-- C3 counterexample: a timeout at the tool follow-up hop yields the generic
apology, not the "took too long" one — the follow-up call is not wrapped in
`asyncio.wait_for`, and the SDK timeout error is not `asyncio.TimeoutError`,
so it lands in the generic `except Exception` handler. -/
theorem second_hop_timeout_generic :
    (OpenAIAgent.getResponse c3Env [] "hi").output =
        (some OpenAIAgent.genericErrorMessage, false) ∧
      OpenAIAgent.genericErrorMessage ≠ OpenAIAgent.tooLongMessage := by
  constructor
  · decide
  · decide

/-- C3 (amended): a timeout of the first LLM call (the one under
`asyncio.wait_for`) is terminal and yields the fixed "took too long" apology
with flag `False`; any other first-call exception, and ANY failure of the
tool follow-up call — a timeout included, because the SDK's timeout error is
not `asyncio.TimeoutError` — yields the distinct fixed generic apology with
flag `False`. -/
theorem llm_failure_messages (env : OpenAIAgent.Env) (hist : List OpenAIAgent.Turn)
    (msg : String) :
    (env.firstCall = .timeout →
        (OpenAIAgent.getResponse env hist msg).output =
          (some OpenAIAgent.tooLongMessage, false)) ∧
      (env.firstCall = .failure →
        (OpenAIAgent.getResponse env hist msg).output =
          (some OpenAIAgent.genericErrorMessage, false)) ∧
      (∀ (m : OpenAIAgent.AssistantMsg) (tc : OpenAIAgent.ToolCallRec)
          (rest : List OpenAIAgent.ToolCallRec),
        env.firstCall = .ok m → m.tool_calls = some (tc :: rest) →
        tc.name ∈ ["search_web", "get_token_price", "create_token", "create_account",
          "get_account_by_user", "get_account_detail"] →
        (env.secondCall = .timeout ∨ env.secondCall = .failure) →
        (OpenAIAgent.getResponse env hist msg).output =
          (some OpenAIAgent.genericErrorMessage, false)) ∧
      OpenAIAgent.tooLongMessage ≠ OpenAIAgent.genericErrorMessage := by
  refine ⟨?_, ?_, ?_, by decide⟩
  · intro h
    simp [OpenAIAgent.getResponse, OpenAIAgent.respond, h]
  · intro h
    simp [OpenAIAgent.getResponse, OpenAIAgent.respond, h]
  · intro m tc rest hfc htc hmem hsc
    have hout : env.secondCall = .timeout ∨ env.secondCall = .failure := hsc
    simp only [List.mem_cons, List.mem_singleton, List.not_mem_nil, or_false] at hmem
    rcases hmem with h | h | h | h | h | h <;>
      rcases hout with h2 | h2 <;>
        simp [OpenAIAgent.getResponse, OpenAIAgent.respond, hfc, htc, OpenAIAgent.dispatch, h, h2,
          OpenAIAgent.followupRender, OpenAIAgent.followupRaw] <;>
          split_ifs <;>
            simp [OpenAIAgent.followupRender, OpenAIAgent.followupRaw, h2]

/-- C3 witness: the amended theorem at a first-hop timeout and at a
second-hop timeout. -/
theorem llm_failure_messages_witness :
    (OpenAIAgent.getResponse c3TimeoutEnv [] "hi").output =
        (some OpenAIAgent.tooLongMessage, false) ∧
      (OpenAIAgent.getResponse c3Env [] "hi").output =
        (some OpenAIAgent.genericErrorMessage, false) :=
  ⟨(llm_failure_messages c3TimeoutEnv [] "hi").1 rfl,
    (llm_failure_messages c3Env [] "hi").2.2.1 _ _ _ rfl rfl (by decide) (Or.inl rfl)⟩

/-! Claim C10 — short-circuit output bypasses the renderer. -/

/-- A missing-network `get_account_detail` turn whose follow-up text carries
markdown. -/
def c10ShortEnv : OpenAIAgent.Env :=
  { firstCall := .ok ⟨none, some [⟨"c1", "get_account_detail", { address := some "0xabc" }⟩]⟩,
    secondCall := .ok (some "**x**"),
    adapterResult := fun _ => .payload "detail" }

/-- A complete-arguments `get_account_detail` turn with the same follow-up
text. -/
def c10FullEnv : OpenAIAgent.Env :=
  { firstCall := .ok ⟨none,
      some [⟨"c1", "get_account_detail",
        { address := some "0xabc", network := some "mainnet" }⟩]⟩,
    secondCall := .ok (some "**x**"),
    adapterResult := fun _ => .payload "detail" }

/-- C10: when a `get_account_detail` call is short-circuited for a missing
network or address, `get_response` returns the follow-up model text as is
with the formatting flag `False` — the markdown-to-HTML renderer is not
applied — whereas the same call with complete arguments returns
`markdown_to_html`'s output together with its success flag. -/
theorem get_account_detail_render_flag (env : OpenAIAgent.Env) (hist : List OpenAIAgent.Turn)
    (msg : String) (m : OpenAIAgent.AssistantMsg) (tc : OpenAIAgent.ToolCallRec)
    (rest : List OpenAIAgent.ToolCallRec) (t : String)
    (hfc : env.firstCall = .ok m) (htc : m.tool_calls = some (tc :: rest))
    (hname : tc.name = "get_account_detail") (hsc : env.secondCall = .ok (some t)) :
    ((strTruthy tc.args.network = false ∨ strTruthy tc.args.address = false) →
        (OpenAIAgent.getResponse env hist msg).output = (some t, false)) ∧
      (strTruthy tc.args.network = true → strTruthy tc.args.address = true →
        (OpenAIAgent.getResponse env hist msg).output =
          (some (MarkdownFormatter.markdown_to_html t).1,
            (MarkdownFormatter.markdown_to_html t).2)) := by
  constructor
  · intro hshort
    cases hnet : strTruthy tc.args.network with
    | false =>
      simp [OpenAIAgent.getResponse, OpenAIAgent.respond, hfc, htc, OpenAIAgent.dispatch, hname,
        hnet, hsc, OpenAIAgent.followupRaw]
    | true =>
      have haddr : strTruthy tc.args.address = false := by
        rcases hshort with h | h
        · rw [h] at hnet; cases hnet
        · exact h
      simp [OpenAIAgent.getResponse, OpenAIAgent.respond, hfc, htc, OpenAIAgent.dispatch, hname,
        hnet, haddr, hsc, OpenAIAgent.followupRaw]
  · intro hnet haddr
    simp [OpenAIAgent.getResponse, OpenAIAgent.respond, hfc, htc, OpenAIAgent.dispatch, hname,
      hnet, haddr, hsc, OpenAIAgent.followupRender, MarkdownFormatter.renderOpt]

/-- C10 witness: the same markdown follow-up text comes back raw with flag
`False` on the short-circuit and rendered with flag `True` on the complete
call. -/
theorem get_account_detail_render_flag_witness :
    (OpenAIAgent.getResponse c10ShortEnv [] "balance?").output = (some "**x**", false) ∧
      (OpenAIAgent.getResponse c10FullEnv [] "balance?").output = (some "<b>x</b>", true) := by
  constructor
  · exact (get_account_detail_render_flag c10ShortEnv [] "balance?" _ _ _ _
      rfl rfl rfl rfl).1 (Or.inl rfl)
  · have h := (get_account_detail_render_flag c10FullEnv [] "balance?" _ _ _ "**x**"
      rfl rfl rfl rfl).2 rfl rfl
    rw [h]
    decide

end OmniAgent
